import Mathlib

set_option maxRecDepth 8192

/-!
Verification of `AzadiDNSTester.py` (its-pixelion/AzadiDNSTester).

Shallow embedding: the pure logic of the script is translated into Lean
definitions.  Network I/O is abstracted as an environment value (the DNS
answer a candidate server would give, together with the measured elapsed
milliseconds); the ledger file is modelled as a list of lines; the
`threading.Lock` used by `write_header` / `real_time_save` serializes
each append, which is modelled by each critical section being a single
atomic transformation of the file state.  Latencies (`time.time()`
differences, floats in Python) are modelled as natural numbers of
milliseconds.
-/

namespace AzadiDNS

/-! ## `socket.inet_aton` (C library `inet_aton` semantics)

`test_single_server` validates its argument with `socket.inet_aton`
(line 177).  `inet_aton` accepts the classic numbers-and-dots forms
`a`, `a.b`, `a.b.c`, `a.b.c.d`, each component written in decimal,
octal (leading `0`) or hexadecimal (leading `0x`/`0X`), with bounds
depending on the form (`a.b.c.d`: every part `≤ 255`; `a.b.c`:
`c < 2^16`; `a.b`: `b < 2^24`; `a`: `a < 2^32`).  Trailing whitespace
tolerance is not modelled (no claim exercises it). -/

def hexVal (c : Char) : Option Nat :=
  if '0' ≤ c ∧ c ≤ '9' then some (c.toNat - '0'.toNat)
  else if 'a' ≤ c ∧ c ≤ 'f' then some (c.toNat - 'a'.toNat + 10)
  else if 'A' ≤ c ∧ c ≤ 'F' then some (c.toNat - 'A'.toNat + 10)
  else none

/-- Parse a digit string in the given base (2–16); `none` on an empty
string or a character that is not a digit of the base. -/
def parseDigits (base : Nat) : List Char → Option Nat → Option Nat
  | [], acc => acc
  | c :: rest, acc =>
    match hexVal c with
    | none => none
    | some v =>
      if v < base then
        match acc with
        | none => parseDigits base rest (some v)
        | some n => parseDigits base rest (some (n * base + v))
      else none

/-- One numeric component of an `inet_aton` address string: decimal,
`0…` octal, or `0x…`/`0X…` hexadecimal. -/
def parsePart : List Char → Option Nat
  | [] => none
  | '0' :: 'x' :: rest => parseDigits 16 rest none
  | '0' :: 'X' :: rest => parseDigits 16 rest none
  | '0' :: rest => parseDigits 8 rest (some 0)
  | l => parseDigits 10 l none

/-- Split a character list on a separator (the empty list yields one
empty component, like `String.splitOn`). -/
def splitOnChar (sep : Char) : List Char → List (List Char)
  | [] => [[]]
  | c :: rest =>
    if c = sep then [] :: splitOnChar sep rest
    else
      match splitOnChar sep rest with
      | [] => [[c]]
      | p :: ps => (c :: p) :: ps

/-- `socket.inet_aton` acceptance: does `s` denote an IPv4 address in
any of the classic 1–4 component forms? -/
def inet_aton_ok (s : String) : Bool :=
  match (splitOnChar '.' s.toList).mapM parsePart with
  | none => false
  | some [a] => a < 2 ^ 32
  | some [a, b] => a ≤ 255 && b < 2 ^ 24
  | some [a, b, c] => a ≤ 255 && b ≤ 255 && c < 2 ^ 16
  | some [a, b, c, d] => a ≤ 255 && b ≤ 255 && c ≤ 255 && d ≤ 255
  | some _ => false

/-! ## `test_single_server` -/

/-- The possible results of `resolver.resolve(domain, 'A')` as dnspython
reports them: a non-empty answer set (dnspython raises `NoAnswer`
instead of returning zero records, so `answered` carries the first
answer and the record count, with `recordCount ≥ 1` in any run),
or one of the exceptions caught at lines 197–211. -/
inductive DNSAnswer where
  | answered (firstIp : String) (recordCount : Nat)
  | nxdomain
  | timeout
  | noAnswer
  | dnsError (msg : String)
  | otherError (msg : String)
deriving DecidableEq

/-- The spec's `ProbeOutcome.status` taxonomy; a ghost annotation
recording which branch of `test_single_server` produced the result. -/
inductive Status where
  | Success
  | InvalidAddress
  | NoAnswer
  | NameNotFound
  | TimedOut
  | ProtocolError
  | UnknownError
deriving DecidableEq

/-- The `dns.resolver.Resolver` configuration built at lines 182–185. -/
structure Resolver where
  configure : Bool
  nameservers : List String
  timeout : Nat
  lifetime : Nat
deriving DecidableEq

/-- Python slicing `s[:n]`: the first `n` code points. -/
def pySlice (n : Nat) (s : String) : String := String.mk (s.toList.take n)

/-- The `server_info` string built at line 192 for a success:
`f"{server} ({response_time:.0f}ms)"`. -/
def server_info_line (server : String) (rt : Nat) : String :=
  server ++ " (" ++ toString rt ++ "ms)"

/-- The value of one `test_single_server` call: the `(success, result,
message)` triple of the source, plus ghost fields: `status` (which
branch ran), `queried` (whether the network path was reached),
`resolver` (the resolver built for the query, if any) and `savedLine`
(the line handed to `real_time_save`, if any). -/
structure ProbeResult where
  success : Bool
  address : String
  latency : Option Nat
  message : String
  status : Status
  queried : Bool
  resolver : Option Resolver
  savedLine : Option String
deriving DecidableEq

/-- `test_single_server(server, domain, timeout)` (lines 174–211).
`ans` is the environment's DNS behaviour for this server and `elapsedMs`
the measured elapsed time (integral milliseconds model of
`(time.time() - start_time) * 1000` after `:.0f` formatting). -/
def test_single_server (server : String) (_domain : String) (timeout : Nat)
    (ans : DNSAnswer) (elapsedMs : Nat) : ProbeResult :=
  if inet_aton_ok server then
    let r : Resolver :=
      { configure := false, nameservers := [server],
        timeout := timeout, lifetime := timeout }
    match ans with
    | .answered firstIp n =>
      { success := true, address := server, latency := some elapsedMs,
        message := server ++ " OK " ++ toString elapsedMs ++ "ms (" ++
          firstIp ++ ") - " ++ toString n ++ " records",
        status := .Success, queried := true, resolver := some r,
        savedLine := some (server_info_line server elapsedMs) }
    | .nxdomain =>
      { success := false, address := server, latency := some elapsedMs,
        message := server ++ " NXDOMAIN (" ++ toString elapsedMs ++ "ms)",
        status := .NameNotFound, queried := true, resolver := some r,
        savedLine := none }
    | .timeout =>
      { success := false, address := server, latency := some elapsedMs,
        message := server ++ " TIMEOUT (" ++ toString timeout ++ "s, " ++
          toString elapsedMs ++ "ms)",
        status := .TimedOut, queried := true, resolver := some r,
        savedLine := none }
    | .noAnswer =>
      { success := false, address := server, latency := some elapsedMs,
        message := server ++ " NO ANSWER (" ++ toString elapsedMs ++ "ms)",
        status := .NoAnswer, queried := true, resolver := some r,
        savedLine := none }
    | .dnsError m =>
      { success := false, address := server, latency := some elapsedMs,
        message := server ++ " DNS ERROR (" ++ pySlice 20 m ++ ", " ++
          toString elapsedMs ++ "ms)",
        status := .ProtocolError, queried := true, resolver := some r,
        savedLine := none }
    | .otherError m =>
      { success := false, address := server, latency := some elapsedMs,
        message := server ++ " ERROR (" ++ pySlice 20 m ++ ", " ++
          toString elapsedMs ++ "ms)",
        status := .UnknownError, queried := true, resolver := some r,
        savedLine := none }
  else
    { success := false, address := server, latency := none,
      message := server ++ " INVALID IP",
      status := .InvalidAddress, queried := false, resolver := none,
      savedLine := none }

/-! ## `check_dns_servers` dispatch loop (lines 239–265)

The `ThreadPoolExecutor` / `as_completed` loop is modelled by folding
over the list of completed tasks in completion order (an arbitrary
permutation of the submitted candidates; `workerCount` only bounds how
many probes are in flight and does not appear in the functional model).
Each completed future either yields the `test_single_server` triple
(`TaskOutcome.ok`) or raises out of `future.result()`
(`TaskOutcome.crash`, the `except Exception` arm at lines 260–263). -/

/-- What `future.result()` delivers for one candidate. -/
inductive TaskOutcome where
  | ok (r : ProbeResult)
  | crash (msg : String)

/-- One iteration of the `as_completed` loop: a successful triple goes
to `working` (the `(server, response_time)` pair), a failed triple
contributes its `server_ip` to `failed`, and a crashed future
contributes the submitted server (looked up in `future_to_server`)
to `failed`. -/
def dispatchStep (acc : List (String × Option Nat) × List String)
    (t : String × TaskOutcome) :
    List (String × Option Nat) × List String :=
  match t.2 with
  | .ok r =>
    if r.success then (acc.1 ++ [(r.address, r.latency)], acc.2)
    else (acc.1, acc.2 ++ [r.address])
  | .crash _ => (acc.1, acc.2 ++ [t.1])

/-- The whole dispatch loop: fold `dispatchStep` over the completed
tasks, starting from empty `working` / `failed` lists. -/
def dispatch (tasks : List (String × TaskOutcome)) :
    List (String × Option Nat) × List String :=
  tasks.foldl dispatchStep ([], [])

/-- The `working` contribution of one task, as a `filterMap` function. -/
def workingOf (t : String × TaskOutcome) : Option (String × Option Nat) :=
  match t.2 with
  | .ok r => if r.success then some (r.address, r.latency) else none
  | .crash _ => none

/-- The `failed` contribution of one task, as a `filterMap` function. -/
def failedOf (t : String × TaskOutcome) : Option String :=
  match t.2 with
  | .ok r => if r.success then none else some r.address
  | .crash _ => some t.1

/-! ## Ledger file (`write_header`, `real_time_save`)

The ledger `working_dns.txt` is a list of lines.  Both writers hold
`file_lock` for the whole open+write+close (lines 92–100 and 106–111),
so every concurrent schedule of appends is equivalent to some serial
order; each critical section is therefore modelled as one atomic
transformation of the file state, and concurrency is captured by
quantifying over the serialization order. -/

/-- `write_header(test_domain)` (lines 87–100): truncates the ledger
(`open(filepath, 'w')`) and writes the three header lines.  `ts` is the
formatted `datetime.now()` timestamp. -/
def write_header (test_domain ts : String) (_prior : List String) :
    List String :=
  [ "# Working DNS servers - Tested: " ++ ts,
    "# Test domain: " ++ test_domain,
    "# Format: IP (response_time_ms)" ]

/-- `real_time_save(server_info)` (lines 102–111): appends one line
(`open(filepath, 'a')`). -/
def real_time_save (server_info : String) (file : List String) :
    List String :=
  file ++ [server_info]

/-- One run's effect on the ledger: `write_header` once, then one
`real_time_save` per success, in success-completion order. -/
def run_ledger (test_domain ts : String) (saves : List (String × Nat))
    (prior : List String) : List String :=
  saves.foldl (fun f p => real_time_save (server_info_line p.1 p.2) f)
    (write_header test_domain ts prior)

/-! ## Result aggregation (lines 271–291) -/

/-- Python division, raising `ZeroDivisionError` on a zero divisor. -/
def pyDiv (a b : ℚ) : Except String ℚ :=
  if b = 0 then Except.error "ZeroDivisionError" else Except.ok (a / b)

/-- `success_rate = (len(working) / len(servers) * 100) if servers
else 0` (line 272). -/
def success_rate (working : List (String × Option Nat))
    (servers : List String) : Except String ℚ :=
  if servers.isEmpty then Except.ok 0
  else (pyDiv working.length servers.length).map (fun q => q * 100)

/-- The summary statistics printed at lines 274–277. -/
structure Summary where
  total : Nat
  workingCount : Nat
  rate : Except String ℚ
  failedCount : Nat

/-- The aggregation of the final report (lines 271–277). -/
def aggregate (servers : List String)
    (working : List (String × Option Nat)) (failed : List String) :
    Summary :=
  { total := servers.length, workingCount := working.length,
    rate := success_rate working servers, failedCount := failed.length }

/-- `sorted(working, key=lambda x: x[1])` (line 283).  Python's
`sorted` is a stable sort by the latency key; every element of
`working` carries a measured latency (the success branch always sets
one), so the report is modelled over `String × Nat` pairs.  -/
def latency_le (a b : String × Nat) : Bool := a.2 ≤ b.2

/-- `sorted(working, key=lambda x: x[1])`: a stable merge sort by the
latency component. -/
def sorted_working (working : List (String × Nat)) : List (String × Nat) :=
  working.mergeSort latency_le

/-- The TOP 5 section (lines 281–288): the 5 fastest working servers
(`sorted_working[:5]`) and, when more than 5 servers work, the count
shown by the `... {len(working)-5} more servers` line. -/
def top5_report (working : List (String × Nat)) :
    List (String × Nat) × Option Nat :=
  ((sorted_working working).take 5,
    if working.length > 5 then some (working.length - 5) else none)

/-! ## `get_test_domain` (lines 151–172)

The interactive loop is modelled by a per-input decision function
(`none` = re-prompt) folded over the successive raw inputs. -/

/-- The fixed menu at line 153. -/
def domains : List String := ["google.com", "cloudflare.com", "example.com"]

/-- Python `str.strip()`: drop leading and trailing whitespace. -/
def pyStrip (s : String) : String :=
  String.mk
    (((s.toList.dropWhile Char.isWhitespace).reverse.dropWhile
      Char.isWhitespace).reverse)

/-- Python `str.isdigit()` (ASCII model): non-empty and all digits. -/
def pyIsDigit (s : String) : Bool :=
  !s.toList.isEmpty && s.toList.all Char.isDigit

/-- Python `int()` on an all-digit string. -/
def pyInt (s : String) : Nat :=
  s.toList.foldl (fun n c => n * 10 + (c.toNat - '0'.toNat)) 0

/-- One round of the `get_test_domain` loop body on one raw input
(line 161 strips it): a digit 1–3 selects from the menu; otherwise a
non-empty string containing `'.'` and not starting with `http://` /
`https://` is returned verbatim; an empty input returns
`"google.com"`; anything else re-prompts (`none`). -/
def get_test_domain_step (raw : String) : Option String :=
  if pyIsDigit (pyStrip raw) ∧ 1 ≤ pyInt (pyStrip raw) ∧
      pyInt (pyStrip raw) ≤ 3 then
    some (domains.getD (pyInt (pyStrip raw) - 1) "")
  else if pyStrip raw ≠ "" ∧ (pyStrip raw).toList.contains '.' ∧
      ¬ (List.isPrefixOf "http://".toList (pyStrip raw).toList ∨
         List.isPrefixOf "https://".toList (pyStrip raw).toList) then
    some (pyStrip raw)
  else if pyStrip raw = "" then some "google.com"
  else none

/-- The whole `while True` loop over a queue of raw inputs; `none`
means every supplied input was rejected (the real loop would keep
prompting). -/
def get_test_domain : List String → Option String
  | [] => none
  | raw :: rest =>
    match get_test_domain_step raw with
    | some d => some d
    | none => get_test_domain rest

/-! ## `load_servers` / `create_sample_servers` (lines 27–85)

The regex
`\b(?:(?:25[0-5]|2[0-4][0-9]|[01]?[0-9][0-9]?)\.){3}(?:25...)\b`
is modelled by a backtracking matcher faithful to Python `re` ordered
alternation and greedy `?`, scanned left-to-right with non-overlapping
continuation (`findall`).  Word characters are the ASCII `\w` class. -/

/-- Python `\w` (ASCII model): letters, digits, underscore. -/
def isWordChar (c : Char) : Bool := c.isAlphanum || c = '_'

/-- Does `c` lie in the inclusive character range `lo`–`hi`? -/
def charBetween (lo hi c : Char) : Bool := decide (lo ≤ c ∧ c ≤ hi)

/-- Test a predicate on an optional lookahead character. -/
def optIs (p : Char → Bool) : Option Char → Bool
  | some c => p c
  | none => false

/-- Candidate match lengths for one octet
`(25[0-5]|2[0-4][0-9]|[01]?[0-9][0-9]?)` at the head of `cs`, in the
regex engine's preference order (alternation is ordered, `?` is
greedy). -/
def octetLens (cs : List Char) : List Nat :=
  let c0 := cs.head?
  let c1 := (cs.drop 1).head?
  let c2 := (cs.drop 2).head?
  (if optIs (· = '2') c0 && optIs (· = '5') c1 &&
      optIs (charBetween '0' '5') c2 then [3] else []) ++
  (if optIs (· = '2') c0 && optIs (charBetween '0' '4') c1 &&
      optIs Char.isDigit c2 then [3] else []) ++
  (if optIs (charBetween '0' '1') c0 then
    (if optIs Char.isDigit c1 && optIs Char.isDigit c2 then [3] else []) ++
    (if optIs Char.isDigit c1 then [2] else []) ++ [1]
   else if optIs Char.isDigit c0 then
    (if optIs Char.isDigit c1 then [2] else []) ++ [1]
   else [])

/-- The trailing `\b`: the previous character is a digit, so there is a
boundary iff the input ends or continues with a non-word character. -/
def wordEnd : List Char → Bool
  | [] => true
  | c :: _ => !(isWordChar c)

/-- Match `octet(\.octet){k}\b` at the head of `cs`, backtracking over
octet lengths; returns the matched characters and the rest. -/
def matchOctets : Nat → List Char → Option (List Char × List Char)
  | 0, cs =>
    (octetLens cs).findSome? fun n =>
      let rest := cs.drop n
      if wordEnd rest then some (cs.take n, rest) else none
  | k + 1, cs =>
    (octetLens cs).findSome? fun n =>
      match cs.drop n with
      | '.' :: rest2 =>
        (matchOctets k rest2).map fun m => (cs.take n ++ '.' :: m.1, m.2)
      | _ => none

/-- Left-to-right non-overlapping scan; `prevWord` tracks whether the
previous character is a word character (the leading `\b`: the first
matched character is a digit, so a match may start only after a
non-word character or at the start).  `fuel` bounds the recursion; one
unit is spent per step and every step consumes at least one
character. -/
def ip_findall_aux : Nat → List Char → Bool → List String
  | 0, _, _ => []
  | _ + 1, [], _ => []
  | fuel + 1, c :: rest, prevWord =>
    if prevWord then ip_findall_aux fuel rest (isWordChar c)
    else
      match matchOctets 3 (c :: rest) with
      | some m => String.mk m.1 :: ip_findall_aux fuel m.2 true
      | none => ip_findall_aux fuel rest (isWordChar c)

/-- `ip_pattern.findall(content)` (lines 60–65). -/
def ip_findall (content : String) : List String :=
  ip_findall_aux (content.toList.length + 1) content.toList false

/-- The filesystem as far as `load_servers` sees it: the content of
`dns_servers.txt`, or `none` when the file does not exist. -/
structure FS where
  dns_content : Option String
deriving DecidableEq

/-- The hard-coded fallback resolvers (lines 33–43). -/
def sample_servers : List String :=
  ["1.1.1.1", "1.0.0.1", "8.8.8.8", "8.8.4.4", "9.9.9.9",
   "208.67.222.222", "208.67.220.220", "4.2.2.1", "4.2.2.2"]

/-- The file `create_sample_servers` writes (one server per line). -/
def sample_file_content : String :=
  String.join (sample_servers.map (fun s => s ++ "\n"))

/-- `create_sample_servers` (lines 27–51): returns without writing
when the file already exists, otherwise writes the sample list. -/
def create_sample_servers (fs : FS) : FS :=
  match fs.dns_content with
  | some _ => fs
  | none => { dns_content := some sample_file_content }

/-- `list(set(all_ips))` (line 66).  CPython's set iteration order is
unspecified; the model keeps first occurrences.  No claim depends on
the order of the returned list. -/
def pyDedup (l : List String) : List String := l.eraseDups

/-- `load_servers` (lines 53–85) with explicit recursion fuel: the real
function recurses on itself after `create_sample_servers` both when the
file is missing and when it contains no IPv4 address; `none` means the
fuel ran out, i.e. the recursion did not terminate within `fuel`
levels. -/
def load_servers_fuel : Nat → FS → Option (List String)
  | 0, _ => none
  | fuel + 1, fs =>
    match fs.dns_content with
    | none => load_servers_fuel fuel (create_sample_servers fs)
    | some content =>
      let servers := pyDedup (ip_findall content)
      if servers.isEmpty then
        load_servers_fuel fuel (create_sample_servers fs)
      else some servers

end AzadiDNS

example :
    AzadiDNS.ip_findall "srv 8.8.8.8, 1.2.3.4 end" = ["8.8.8.8", "1.2.3.4"] := by
  decide
example : AzadiDNS.ip_findall "999.1.1.1" = [] := by decide
example : AzadiDNS.ip_findall "1234.1.1.1.1" = ["1.1.1.1"] := by decide
example : AzadiDNS.ip_findall "hello dns" = [] := by decide
example : AzadiDNS.ip_findall "256.300.1.2" = [] := by decide
example :
    AzadiDNS.pyDedup (AzadiDNS.ip_findall "1.1.1.1 1.1.1.1 2.2.2.2")
      = ["1.1.1.1", "2.2.2.2"] := by decide
example :
    AzadiDNS.load_servers_fuel 3 { dns_content := none }
      = some AzadiDNS.sample_servers := by decide
example : AzadiDNS.get_test_domain_step "2" = some "cloudflare.com" := by decide
example : AzadiDNS.get_test_domain_step "" = some "google.com" := by decide
example : AzadiDNS.get_test_domain_step " my domain.x " = some "my domain.x" := by
  decide
example : AzadiDNS.get_test_domain_step "http://a.b" = none := by decide
example : AzadiDNS.get_test_domain_step "nodot" = none := by decide

example : AzadiDNS.inet_aton_ok "8.8.8.8" = true := by decide
example : AzadiDNS.inet_aton_ok "999.1.1.1" = false := by decide
example : AzadiDNS.inet_aton_ok "1.1.1" = true := by decide
example : AzadiDNS.inet_aton_ok "1.1" = true := by decide
example : AzadiDNS.inet_aton_ok "256.1.1.1" = false := by decide
example : AzadiDNS.inet_aton_ok "0x7f.1" = true := by decide
example : AzadiDNS.inet_aton_ok "09.1.1.1" = false := by decide
example : AzadiDNS.inet_aton_ok "" = false := by decide
example : AzadiDNS.inet_aton_ok "1.1.1.1." = false := by decide
example : AzadiDNS.inet_aton_ok "a.b.c.d" = false := by decide
example :
    (AzadiDNS.test_single_server "999.1.1.1" "google.com" 3 .nxdomain 5).message
      = "999.1.1.1 INVALID IP" := by decide
example :
    (AzadiDNS.test_single_server "8.8.8.8" "google.com" 3
      (.dnsError "abcdefghijklmnopqrstuvwxyz") 5).message
      = "8.8.8.8 DNS ERROR (abcdefghijklmnopqrst, 5ms)" := by decide

namespace AzadiDNS

/-! ## Helper lemmas -/

/-- Folding appends over a list equals one append of the mapped list. -/
theorem run_ledger_eq (d ts : String) (saves : List (String × Nat))
    (prior : List String) :
    run_ledger d ts saves prior =
      write_header d ts prior ++
        saves.map (fun p => server_info_line p.1 p.2) := by
  unfold run_ledger
  generalize write_header d ts prior = init
  induction saves generalizing init with
  | nil => simp
  | cons p rest ih =>
    rw [List.foldl_cons, ih]
    simp [real_time_save]

/-- A Python slice `s[:n]` has at most `n` characters. -/
theorem pySlice_length_le (n : Nat) (s : String) :
    (pySlice n s).length ≤ n := by
  show (s.toList.take n).length ≤ n
  simp [List.length_take]

/-! ## C2 -/

/-- C2 (counterexample): the claim says every string that is not a
dotted-quad IPv4 address — `"1.1.1"` explicitly included — is
classified `INVALID IP` with no network query.  But `socket.inet_aton`
accepts the legacy three-component form `"1.1.1"`, so
`test_single_server` proceeds to the network query for it and does not
return the `INVALID IP` classification. -/
theorem c2_counterexample :
    inet_aton_ok "1.1.1" = true ∧
    (test_single_server "1.1.1" "google.com" 3
      (.answered "142.250.80.14" 1) 20).queried = true ∧
    (test_single_server "1.1.1" "google.com" 3
      (.answered "142.250.80.14" 1) 20).status ≠ Status.InvalidAddress ∧
    (test_single_server "1.1.1" "google.com" 3
      (.answered "142.250.80.14" 1) 20).message ≠ "1.1.1 INVALID IP" := by
  refine ⟨by decide, by decide, by decide, by decide⟩

/-- C2 (amended): for every input string rejected by `inet_aton`
(`"999.1.1.1"` among them), `test_single_server` returns the
`InvalidAddress` classification — `success = false`, detail
`"<server> INVALID IP"`, latency absent — and performs no network
query; strings accepted by `inet_aton`, which include legacy non
dotted-quad forms such as `"1.1.1"`, are queried instead. -/
theorem c2_invalid_ip (server domain : String) (t : Nat)
    (ans : DNSAnswer) (e : Nat) (h : inet_aton_ok server = false) :
    test_single_server server domain t ans e =
      { success := false, address := server, latency := none,
        message := server ++ " INVALID IP",
        status := .InvalidAddress, queried := false, resolver := none,
        savedLine := none } := by
  simp [test_single_server, h]

/-- C2 witness: the amended theorem at the concrete rejected input
`"999.1.1.1"`. -/
theorem c2_invalid_ip_witness :
    test_single_server "999.1.1.1" "google.com" 3 .nxdomain 20 =
      { success := false, address := "999.1.1.1", latency := none,
        message := "999.1.1.1 INVALID IP",
        status := .InvalidAddress, queried := false, resolver := none,
        savedLine := none } :=
  c2_invalid_ip "999.1.1.1" "google.com" 3 .nxdomain 20 (by decide)

/-! ## C9 -/

/-- C9: for every probed (address-valid) candidate,
`test_single_server` builds a resolver that ignores the system resolver
configuration (`configure = false`), names the candidate as the only
nameserver, and uses the configured timeout as both the per-query
timeout and the overall lifetime. -/
theorem c9_resolver_config (server domain : String) (t : Nat)
    (ans : DNSAnswer) (e : Nat) (h : inet_aton_ok server = true) :
    (test_single_server server domain t ans e).resolver =
      some { configure := false, nameservers := [server],
             timeout := t, lifetime := t } := by
  cases ans <;> simp [test_single_server, h]

/-- C9 witness: the resolver configuration at a concrete probe. -/
theorem c9_resolver_config_witness :
    (test_single_server "8.8.8.8" "google.com" 3 .timeout 3000).resolver =
      some { configure := false, nameservers := ["8.8.8.8"],
             timeout := 3, lifetime := 3 } :=
  c9_resolver_config "8.8.8.8" "google.com" 3 .timeout 3000 (by decide)

/-! ## C3 -/

/-- C3: for a valid candidate, `test_single_server` maps each query
result to exactly one status by the fixed table — answers present →
`Success` (detail carries the first answer and the record count);
NXDOMAIN → `NameNotFound`; deadline elapsed → `TimedOut`; zero-answer
response → `NoAnswer`; any other DNS-library error → `ProtocolError`
with the diagnostic truncated to at most 20 characters; any other
exception → `UnknownError` with the same truncation — and every one of
these outcomes carries the elapsed latency. -/
theorem c3_classification (server domain : String) (t e : Nat)
    (h : inet_aton_ok server = true) :
    (∀ fi n, test_single_server server domain t (.answered fi n) e =
      { success := true, address := server, latency := some e,
        message := server ++ " OK " ++ toString e ++ "ms (" ++ fi ++
          ") - " ++ toString n ++ " records",
        status := .Success, queried := true,
        resolver := some ⟨false, [server], t, t⟩,
        savedLine := some (server_info_line server e) }) ∧
    (test_single_server server domain t .nxdomain e).status =
      Status.NameNotFound ∧
    (test_single_server server domain t .timeout e).status =
      Status.TimedOut ∧
    (test_single_server server domain t .noAnswer e).status =
      Status.NoAnswer ∧
    (∀ m, test_single_server server domain t (.dnsError m) e =
      { success := false, address := server, latency := some e,
        message := server ++ " DNS ERROR (" ++ pySlice 20 m ++ ", " ++
          toString e ++ "ms)",
        status := .ProtocolError, queried := true,
        resolver := some ⟨false, [server], t, t⟩, savedLine := none }) ∧
    (∀ m, test_single_server server domain t (.otherError m) e =
      { success := false, address := server, latency := some e,
        message := server ++ " ERROR (" ++ pySlice 20 m ++ ", " ++
          toString e ++ "ms)",
        status := .UnknownError, queried := true,
        resolver := some ⟨false, [server], t, t⟩, savedLine := none }) ∧
    (∀ m, (pySlice 20 m).length ≤ 20) ∧
    (∀ ans, (test_single_server server domain t ans e).latency = some e) := by
  refine ⟨?_, ?_, ?_, ?_, ?_, ?_, fun m => pySlice_length_le 20 m, ?_⟩
  · intro fi n; simp [test_single_server, h]
  · simp [test_single_server, h]
  · simp [test_single_server, h]
  · simp [test_single_server, h]
  · intro m; simp [test_single_server, h]
  · intro m; simp [test_single_server, h]
  · intro ans; cases ans <;> simp [test_single_server, h]

/-- C3 witness: the classification table at a concrete valid candidate,
with a diagnostic longer than 20 characters. -/
theorem c3_classification_witness :
    test_single_server "8.8.8.8" "google.com" 3
        (.dnsError "abcdefghijklmnopqrstuvwxyz") 7 =
      { success := false, address := "8.8.8.8", latency := some 7,
        message := "8.8.8.8 DNS ERROR (" ++
          pySlice 20 "abcdefghijklmnopqrstuvwxyz" ++ ", 7ms)",
        status := .ProtocolError, queried := true,
        resolver := some ⟨false, ["8.8.8.8"], 3, 3⟩, savedLine := none } := by
  have h := (c3_classification "8.8.8.8" "google.com" 3 7
    (by decide)).2.2.2.2.1 "abcdefghijklmnopqrstuvwxyz"
  simpa using h

/-! ## C7 -/

/-- C7: given zero candidates the aggregation reports total 0 and a
success rate of 0 %, and no division error is raised (`success_rate`
never takes the dividing branch on an empty server list). -/
theorem c7_empty_candidates (working : List (String × Option Nat))
    (failed : List String) :
    (aggregate [] working failed).total = 0 ∧
    (aggregate [] working failed).rate = Except.ok 0 ∧
    aggregate [] (dispatch []).1 (dispatch []).2 =
      { total := 0, workingCount := 0, rate := Except.ok 0,
        failedCount := 0 } :=
  ⟨rfl, rfl, rfl⟩

/-! ## C4 -/

/-- C4: both ledger writers hold the one `file_lock` around the whole
open+write+close, so every concurrent schedule of appends is some
serialization of atomic whole-line writes; for every serialization
order of N completing successes the ledger is exactly the header
followed by the N well-formed `"<ip> (<ms>ms)"` lines — no interleaved
partial lines and no lost appends. -/
theorem c4_serialized_appends (d ts : String)
    (saves : List (String × Nat)) (prior : List String) :
    run_ledger d ts saves prior =
      write_header d ts prior ++
        saves.map (fun p => server_info_line p.1 p.2) ∧
    (run_ledger d ts saves prior).length = 3 + saves.length := by
  refine ⟨run_ledger_eq d ts saves prior, ?_⟩
  rw [run_ledger_eq d ts saves prior]
  simp [write_header]
  omega

/-! ## C1 -/

/-- The dispatch fold is the pair of `filterMap`s of the per-task
contribution functions. -/
theorem dispatch_filterMap (tasks : List (String × TaskOutcome)) :
    dispatch tasks =
      (tasks.filterMap workingOf, tasks.filterMap failedOf) := by
  unfold dispatch
  suffices h : ∀ acc : List (String × Option Nat) × List String,
      tasks.foldl dispatchStep acc =
        (acc.1 ++ tasks.filterMap workingOf,
         acc.2 ++ tasks.filterMap failedOf) by
    simpa using h ([], [])
  induction tasks with
  | nil => intro acc; simp
  | cons t rest ih =>
    intro acc
    rw [List.foldl_cons, ih]
    rcases t with ⟨s, o⟩
    cases o with
    | ok r =>
      by_cases hs : r.success <;>
        simp [dispatchStep, workingOf, failedOf, hs]
    | crash m =>
      simp [dispatchStep, workingOf, failedOf]

/-- Each task contributes to exactly one of the two collections. -/
theorem dispatch_length (tasks : List (String × TaskOutcome)) :
    (tasks.filterMap workingOf).length +
      (tasks.filterMap failedOf).length = tasks.length := by
  induction tasks with
  | nil => simp
  | cons t rest ih =>
    rcases t with ⟨s, o⟩
    cases o with
    | ok r =>
      by_cases hs : r.success <;>
        simp [List.filterMap_cons, workingOf, failedOf, hs] <;> omega
    | crash m =>
      simp [List.filterMap_cons, workingOf, failedOf]
      omega

/-- The addresses landing in `working` and `failed` are a permutation
of the submitted candidates, provided each completed triple carries the
address it was submitted for. -/
theorem dispatch_addr_perm :
    ∀ tasks : List (String × TaskOutcome),
      (∀ t ∈ tasks, ∀ r, t.2 = TaskOutcome.ok r → r.address = t.1) →
      ((tasks.filterMap workingOf).map Prod.fst ++
        tasks.filterMap failedOf).Perm (tasks.map Prod.fst)
  | [], _ => by simp
  | (s, o) :: rest, h => by
    have hrest := dispatch_addr_perm rest fun t ht r hr =>
      h t (List.mem_cons_of_mem _ ht) r hr
    cases o with
    | ok r =>
      have haddr : r.address = s := h (s, .ok r) (List.mem_cons_self _ _) r rfl
      by_cases hs : r.success
      · simpa [List.filterMap_cons, workingOf, failedOf, hs, haddr] using
          hrest.cons s
      · refine List.Perm.trans ?_ (hrest.cons s)
        simp only [List.filterMap_cons, workingOf, failedOf, hs,
          List.map_cons, if_neg, Bool.false_eq_true, not_false_iff]
        rw [haddr]
        exact List.perm_middle
    | crash m =>
      refine List.Perm.trans ?_ (hrest.cons s)
      simp only [List.filterMap_cons, workingOf, failedOf]
      exact List.perm_middle

/-- C1: the dispatch loop produces exactly one outcome per submitted
candidate — `working` and `failed` together hold the candidates with
multiplicity, no more, no fewer — and a crash escaping
`test_single_server` (the `except` arm around `future.result()`) puts
that one candidate in `failed` without aborting the loop or changing
any other candidate's outcome.  (`workerCount` only bounds how many
probes are in flight; the fold is over an arbitrary completion
order.) -/
theorem c1_one_outcome_per_candidate
    (tasks : List (String × TaskOutcome))
    (h : ∀ t ∈ tasks, ∀ r, t.2 = TaskOutcome.ok r → r.address = t.1) :
    (dispatch tasks).1.length + (dispatch tasks).2.length =
      tasks.length ∧
    ((dispatch tasks).1.map Prod.fst ++ (dispatch tasks).2).Perm
      (tasks.map Prod.fst) ∧
    (∀ pre s m post,
      tasks = pre ++ (s, TaskOutcome.crash m) :: post →
        s ∈ (dispatch tasks).2 ∧
        (dispatch tasks).1 = (dispatch (pre ++ post)).1) := by
  rw [dispatch_filterMap]
  refine ⟨dispatch_length tasks, dispatch_addr_perm tasks h, ?_⟩
  intro pre s m post htasks
  subst htasks
  rw [dispatch_filterMap]
  constructor
  · simp [List.filterMap_append, List.filterMap_cons, failedOf]
  · simp [List.filterMap_append, List.filterMap_cons, workingOf]

/-- A concrete completion order for the C1 witness: one success, one
invalid address, one crashed future. -/
def c1_demo_tasks : List (String × TaskOutcome) :=
  [("8.8.8.8",
     .ok (test_single_server "8.8.8.8" "google.com" 3
       (.answered "142.250.80.14" 2) 20)),
   ("999.1.1.1",
     .ok (test_single_server "999.1.1.1" "google.com" 3 .nxdomain 0)),
   ("1.0.0.1", .crash "RuntimeError")]

/-- C1 witness: the count part of the theorem on the concrete task
list (the crashed candidate included). -/
theorem c1_one_outcome_per_candidate_witness :
    (dispatch c1_demo_tasks).1.length +
      (dispatch c1_demo_tasks).2.length = c1_demo_tasks.length :=
  (c1_one_outcome_per_candidate c1_demo_tasks (by
    intro t ht r hr
    simp only [c1_demo_tasks, List.mem_cons, List.not_mem_nil,
      or_false] at ht
    rcases ht with h1 | h2 | h3
    · subst h1; cases hr; decide
    · subst h2; cases hr; decide
    · subst h3; cases hr)).1

/-! ## C8 -/

/-- C8: `write_header` truncates any pre-existing ledger and writes
exactly the three header lines, and every success appends exactly one
`"<ip> (<ms>ms)"` line; hence a second run's ledger is the second run's
header plus the second run's discoveries only — nothing stale survives
from the first run. -/
theorem c8_header_reset (d1 ts1 d2 ts2 : String)
    (s1 s2 : List (String × Nat)) (prior : List String) :
    write_header d2 ts2 prior =
      ["# Working DNS servers - Tested: " ++ ts2,
       "# Test domain: " ++ d2,
       "# Format: IP (response_time_ms)"] ∧
    (write_header d2 ts2 prior).length = 3 ∧
    run_ledger d2 ts2 s2 (run_ledger d1 ts1 s1 prior) =
      write_header d2 ts2 [] ++
        s2.map (fun p => server_info_line p.1 p.2) :=
  ⟨rfl, rfl, run_ledger_eq d2 ts2 s2 (run_ledger d1 ts1 s1 prior)⟩

end AzadiDNS

namespace AzadiDNS

/-! ## C5 -/

/-- C5 (code bug): when `dns_servers.txt` exists but the IPv4 pattern
extracts nothing from it, `create_sample_servers` returns without
writing anything (the file already exists, line 30), so `load_servers`
recurses on the identical filesystem state: no amount of fuel makes it
produce the fallback list.  (In CPython the recursion runs to
`RecursionError`, which the `except Exception` arm turns into `[]` —
either way the sample list is never substituted, contrary to the
spec.) -/
theorem c5_load_servers_diverges :
    ∀ fuel : Nat,
      load_servers_fuel fuel { dns_content := some "# empty list" } =
        none := by
  intro fuel
  induction fuel with
  | zero => rfl
  | succ n ih => exact ih

/-! ## C10 -/

/-- Any value the `get_test_domain` loop body returns is non-empty. -/
theorem get_test_domain_step_ne_empty (raw d : String)
    (h : get_test_domain_step raw = some d) : d ≠ "" := by
  unfold get_test_domain_step at h
  split at h
  · rename_i hcond
    injection h with h
    subst h
    have hn : pyInt (pyStrip raw) = 1 ∨ pyInt (pyStrip raw) = 2 ∨
        pyInt (pyStrip raw) = 3 := by omega
    rcases hn with hn | hn | hn <;> rw [hn] <;> decide
  · split at h
    · rename_i hcond
      injection h with h
      subst h
      exact hcond.1
    · split at h
      · injection h with h
        subst h
        decide
      · cases h

/-- Whatever the whole prompt loop returns is non-empty. -/
theorem get_test_domain_ne_empty :
    ∀ (inputs : List String) (d : String),
      get_test_domain inputs = some d → d ≠ ""
  | [], _, h => by cases h
  | raw :: rest, d, h => by
    unfold get_test_domain at h
    cases hstep : get_test_domain_step raw with
    | some d0 =>
      rw [hstep] at h
      injection h with h
      subst h
      exact get_test_domain_step_ne_empty raw _ hstep
    | none =>
      rw [hstep] at h
      exact get_test_domain_ne_empty rest d h

/-- C10: `get_test_domain` never returns an empty string; an empty
(stripped) input yields `"google.com"`; a digit 1–3 selects from the
fixed menu; and the only validation applied to any other input is that
the stripped string contains `'.'` and does not start with `http://`
or `https://` — any such string is returned verbatim. -/
theorem c10_domain_prompt (raw : String) (inputs : List String)
    (d : String) :
    (get_test_domain inputs = some d → d ≠ "") ∧
    (pyStrip raw = "" → get_test_domain_step raw = some "google.com") ∧
    (pyIsDigit (pyStrip raw) = true → 1 ≤ pyInt (pyStrip raw) →
      pyInt (pyStrip raw) ≤ 3 →
      get_test_domain_step raw =
        some (domains.getD (pyInt (pyStrip raw) - 1) "")) ∧
    (pyStrip raw ≠ "" →
      ¬ (pyIsDigit (pyStrip raw) = true ∧ 1 ≤ pyInt (pyStrip raw) ∧
          pyInt (pyStrip raw) ≤ 3) →
      (pyStrip raw).toList.contains '.' = true →
      List.isPrefixOf "http://".toList (pyStrip raw).toList = false →
      List.isPrefixOf "https://".toList (pyStrip raw).toList = false →
      get_test_domain_step raw = some (pyStrip raw)) := by
  refine ⟨get_test_domain_ne_empty inputs d, ?_, ?_, ?_⟩
  · intro h
    unfold get_test_domain_step
    rw [h]
    decide
  · intro hd h1 h3
    unfold get_test_domain_step
    rw [if_pos ⟨hd, h1, h3⟩]
  · intro hne hnd hdot hp1 hp2
    have hcond : pyStrip raw ≠ "" ∧
        (pyStrip raw).toList.contains '.' = true ∧
        ¬ (List.isPrefixOf "http://".toList (pyStrip raw).toList = true ∨
           List.isPrefixOf "https://".toList (pyStrip raw).toList = true) := by
      refine ⟨hne, hdot, ?_⟩
      rintro (hx | hx)
      · rw [hp1] at hx; exact Bool.noConfusion hx
      · rw [hp2] at hx; exact Bool.noConfusion hx
    unfold get_test_domain_step
    rw [if_neg hnd, if_pos hcond]

/-- C10 witness: the digit input `" 3 "` selects the third menu entry
and the free-form input behaviour at a concrete string. -/
theorem c10_domain_prompt_witness :
    get_test_domain_step " 3 " =
      some (domains.getD (pyInt (pyStrip " 3 ") - 1) "") :=
  (c10_domain_prompt " 3 " [] "x").2.2.1 (by decide) (by decide)
    (by decide)

end AzadiDNS

namespace AzadiDNS

/-! ## C6 -/

/-- The latency comparison is transitive. -/
theorem latency_le_trans (a b c : String × Nat) :
    latency_le a b → latency_le b c → latency_le a c := by
  simp only [latency_le, decide_eq_true_eq]
  omega

/-- The latency comparison is total. -/
theorem latency_le_total (a b : String × Nat) :
    latency_le a b || latency_le b a := by
  simp only [latency_le]
  rcases Nat.le_total a.2 b.2 with h | h <;> simp [h]


/-- Stability of the report sort: among entries of any one latency
value, the sorted list preserves the original (completion) order. -/
theorem sorted_working_stable (working : List (String × Nat)) (v : Nat) :
    (sorted_working working).filter (fun p => p.2 = v) =
      working.filter (fun p => p.2 = v) := by
  have hfilsub : List.Sublist
      (working.filter (fun p => decide (p.2 = v))) working :=
    List.filter_sublist working
  have hpair : (working.filter (fun p => decide (p.2 = v))).Pairwise
      (fun a b => latency_le a b = true) := by
    apply List.pairwise_of_forall_mem_list
    intro a ha b hb
    have ha2 := (List.mem_filter.mp ha).2
    have hb2 := (List.mem_filter.mp hb).2
    simp only [decide_eq_true_eq] at ha2 hb2
    simp [latency_le, ha2, hb2]
  have hsub : List.Sublist (working.filter (fun p => decide (p.2 = v)))
      (working.mergeSort latency_le) :=
    List.sublist_mergeSort latency_le_trans latency_le_total hpair hfilsub
  have hfil_eq : (working.filter (fun p => decide (p.2 = v))).filter
      (fun p => decide (p.2 = v)) =
      working.filter (fun p => decide (p.2 = v)) := by
    apply List.filter_eq_self.mpr
    intro a ha
    exact (List.mem_filter.mp ha).2
  have hsub2 : List.Sublist (working.filter (fun p => decide (p.2 = v)))
      ((working.mergeSort latency_le).filter
        (fun p => decide (p.2 = v))) := by
    have h := hsub.filter (fun p => decide (p.2 = v))
    rwa [hfil_eq] at h
  have hlen : (working.filter (fun p => decide (p.2 = v))).length =
      ((working.mergeSort latency_le).filter
        (fun p => decide (p.2 = v))).length :=
    (((List.mergeSort_perm working latency_le).filter _).length_eq).symm
  exact (hsub2.eq_of_length hlen).symm

/-- C6: the top-5 report lists the working servers sorted ascending by
latency with a stable tie-break (original order among equal
latencies); with at most 5 working servers all of them are listed and
no "more servers" count appears; with more than 5, exactly 5 are
listed — each no slower than anything beyond the cut — followed by the
count of the rest. -/
theorem c6_top5_report (working : List (String × Nat)) :
    (top5_report working).1.Pairwise (fun a b => a.2 ≤ b.2) ∧
    (∀ v : Nat, (sorted_working working).filter (fun p => p.2 = v) =
      working.filter (fun p => p.2 = v)) ∧
    (sorted_working working).Perm working ∧
    (working.length ≤ 5 →
      (top5_report working).1 = sorted_working working ∧
      (top5_report working).2 = none) ∧
    (5 < working.length →
      (top5_report working).1.length = 5 ∧
      (top5_report working).2 = some (working.length - 5)) ∧
    (∀ a ∈ (top5_report working).1,
      ∀ b ∈ (sorted_working working).drop 5, a.2 ≤ b.2) := by
  have hsorted : (sorted_working working).Pairwise
      (fun a b => a.2 ≤ b.2) := by
    have h := List.sorted_mergeSort latency_le_trans latency_le_total working
    exact h.imp (by
      intro a b hab
      simpa [latency_le] using hab)
  refine ⟨?_, fun v => sorted_working_stable working v,
    List.mergeSort_perm working latency_le, ?_, ?_, ?_⟩
  · exact hsorted.sublist (List.take_sublist 5 _)
  · intro h
    constructor
    · show (sorted_working working).take 5 = sorted_working working
      apply List.take_of_length_le
      simpa [sorted_working] using h
    · show (if working.length > 5 then some (working.length - 5)
        else none) = none
      rw [if_neg (by omega)]
  · intro h
    constructor
    · show ((sorted_working working).take 5).length = 5
      simp [sorted_working, List.length_take]
      omega
    · show (if working.length > 5 then some (working.length - 5)
        else none) = some (working.length - 5)
      rw [if_pos (by omega)]
  · intro a ha b hb
    have hsplit : sorted_working working =
        (sorted_working working).take 5 ++
          (sorted_working working).drop 5 :=
      (List.take_append_drop 5 _).symm
    rw [hsplit] at hsorted
    exact (List.pairwise_append.mp hsorted).2.2 a ha b hb

/-- A concrete working set for the C6 witness: six servers, with a
latency tie. -/
def c6_demo_working : List (String × Nat) :=
  [("9.9.9.9", 30), ("8.8.8.8", 10), ("1.1.1.1", 20), ("8.8.4.4", 10),
   ("4.2.2.1", 40), ("1.0.0.1", 5)]

/-- C6 witness: with six working servers exactly 5 are listed and the
"... 1 more servers" count appears. -/
theorem c6_top5_report_witness :
    (top5_report c6_demo_working).1.length = 5 ∧
    (top5_report c6_demo_working).2 = some (c6_demo_working.length - 5) :=
  (c6_top5_report c6_demo_working).2.2.2.2.1 (by decide)

end AzadiDNS
